import Mathlib

/-!
Verification of the frame-acquisition-and-inference pipeline of the
Pick-and-place-unitree repository (src/demo5.py, src/Livedemo2.py).

The embedding models, faithfully to the Python source:
  * `run_gemini_live` (demo5.py lines 178-234): the retrying inference
    client, with its string-substring error classification, exponential
    backoff waits and early returns;
  * the inline rate gate of `main` (demo5.py lines 249-263) as `tryAcquire`;
  * the channel conversion of `grab_frame` (demo5.py lines 169-172) /
    `grab_left_image` (Livedemo2.py lines 73-78) as `grab_frame_convert`;
  * the driving `while True` loop of `main` (demo5.py lines 252-283) as
    `main_loop`, including the fact that exceptions raised inside the loop
    body propagate to the handler OUTSIDE the loop and therefore end it.

Observable effects (number of service attempts, the list of backoff wait
durations) are carried in the returned trace so the theorems can speak
about them.
-/

/-- A single response of the remote service to one attempt: either a
successful textual payload (`resp.text`, possibly empty) or an exception
whose message is inspected by the classifier. -/
inductive ServiceResponse
  | ok (text : String)
  | error (msg : String)
deriving DecidableEq

/-- Substring occurrence on lists of characters: Python's `pat in s`. -/
def subList (pat : List Char) : List Char → Bool
  | [] => pat.isEmpty
  | c :: rest => pat.isPrefixOf (c :: rest) || subList pat rest

/-- Python's `pat in msg` for strings. -/
def strContains (msg pat : String) : Bool :=
  subList pat.toList msg.toList

/-- demo5.py line 219: an exception message is classified as transient
overload when it contains "503" or "UNAVAILABLE". -/
def overloadMsg (msg : String) : Bool :=
  strContains msg "503" || strContains msg "UNAVAILABLE"

/-- demo5.py line 226: an exception message is classified as quota
exhaustion when it contains "RESOURCE_EXHAUSTED" or "429" (checked only
after the overload test failed). -/
def quotaMsg (msg : String) : Bool :=
  strContains msg "RESOURCE_EXHAUSTED" || strContains msg "429"

/-- Whether a scripted service response is an exception classified as
transient overload. -/
def isOverloadAttempt : ServiceResponse → Bool
  | ServiceResponse.ok _ => false
  | ServiceResponse.error m => overloadMsg m

/-- How `run_gemini_live` concludes: a normal Python `return` (carrying
`str | None`) or a re-raised exception (`raise` on line 231). -/
inductive RunResult
  | returned (text : Option String)
  | raised (msg : String)
deriving DecidableEq

/-- Observable trace of one `run_gemini_live` call: its result, the number
of service attempts performed, and the backoff wait durations in order. -/
structure RunTrace where
  result : RunResult
  attempts : Nat
  waits : List Nat
deriving DecidableEq

/-- Python truthiness test `if not GEMINI_API_KEY` (line 179): the key is
falsy when unset (`none`) or the empty string. -/
def keyFalsy : Option String → Bool
  | none => true
  | some s => decide (s = "")

/-- The `for attempt in range(retries)` loop of `run_gemini_live`
(demo5.py lines 203-234), attempt index and remaining iteration count
carried explicitly.  On success it returns `resp.text or None` (an empty
payload is coalesced to `None`); on an overload-classified exception it
records a wait of `2 ^ attempt` time-units and retries; on a
quota-classified exception it returns `None`; any other exception is
re-raised.  When iterations run out, it returns `None` (line 234). -/
def gemini_attempts (service : Nat → ServiceResponse) :
    Nat → Nat → RunTrace
  | _, 0 => ⟨RunResult.returned none, 0, []⟩
  | attempt, remaining + 1 =>
    match service attempt with
    | ServiceResponse.ok t =>
      ⟨RunResult.returned (if t = "" then none else some t), 1, []⟩
    | ServiceResponse.error msg =>
      if overloadMsg msg then
        let rest := gemini_attempts service (attempt + 1) remaining
        ⟨rest.result, rest.attempts + 1, 2 ^ attempt :: rest.waits⟩
      else if quotaMsg msg then
        ⟨RunResult.returned none, 1, []⟩
      else
        ⟨RunResult.raised msg, 1, []⟩

/-- `run_gemini_live` (demo5.py lines 178-234).  `apiKey` models the
`GEMINI_API_KEY` environment variable, `encodeOk` the success flag of
`cv2.imencode`, `service` the scripted behaviour of the remote call on
each attempt index, `retries` the `retries` parameter (3 at the call
site). -/
def run_gemini_live (apiKey : Option String) (encodeOk : Bool)
    (service : Nat → ServiceResponse) (retries : Nat) : RunTrace :=
  if keyFalsy apiKey then
    ⟨RunResult.returned none, 0, []⟩
  else if encodeOk = false then
    ⟨RunResult.returned none, 0, []⟩
  else
    gemini_attempts service 0 retries

/-- The throttle interval `MIN_INTERVAL = 1.5` seconds (demo5.py line
250), as an exact rational. -/
def MIN_INTERVAL : ℚ := 1.5

/-- Outcome of the inline throttle check in `main`. -/
inductive GateResult
  | Accepted
  | Throttled
deriving DecidableEq

/-- The rate-gate state: the `last_call_time` variable of `main`
(demo5.py line 249), initially 0. -/
structure RateGate where
  last_call_time : ℚ
deriving DecidableEq

/-- The inline throttle check of `main` (demo5.py lines 259-263): if
`now - last_call_time < MIN_INTERVAL` the call is throttled and the state
is unchanged; otherwise `last_call_time` becomes `now` and the call is
accepted. -/
def tryAcquire (g : RateGate) (now : ℚ) : GateResult × RateGate :=
  if now - g.last_call_time < MIN_INTERVAL then
    (GateResult.Throttled, g)
  else
    (GateResult.Accepted, ⟨now⟩)

/-- The initial gate state: `last_call_time = 0` (demo5.py line 249). -/
def gate0 : RateGate := ⟨0⟩

/-- Run a sequence of throttle checks at the given timestamps, recording
each outcome with its timestamp. -/
def runGate : RateGate → List ℚ → List (GateResult × ℚ)
  | _, [] => []
  | g, t :: ts =>
    let r := tryAcquire g t
    (r.1, t) :: runGate r.2 ts

/-- Timestamps of the calls a gate run accepted, in call order. -/
def acceptedTimes (g : RateGate) (ts : List ℚ) : List ℚ :=
  ((runGate g ts).filter
    (fun p => decide (p.1 = GateResult.Accepted))).map Prod.snd

/-- `img.shape[2]` of a frame stored as rows of pixels of channel
values: the channel count read off the first pixel. -/
def shape2 (img : List (List (List Nat))) : Nat :=
  ((img.headD []).headD []).length

/-- The channel conversion performed by `grab_frame` (demo5.py lines
169-172) and `grab_left_image` (Livedemo2.py lines 73-78): when the
driver frame has 4 channels, `img[:, :, :3][:, :, ::-1]` — keep the first
3 channels of every pixel and reverse their order (dropping alpha);
otherwise `img[:, :, ::-1]` — reverse the channel order. -/
def grab_frame_convert (img : List (List (List Nat))) :
    List (List (List Nat)) :=
  if shape2 img = 4 then
    img.map (fun row => row.map (fun px => (px.take 3).reverse))
  else
    img.map (fun row => row.map (fun px => px.reverse))

/-- The key read by `cv2.waitKey` in one iteration of `main`: the
inspection trigger, the quit key, or anything else. -/
inductive Key
  | g
  | q
  | other
deriving DecidableEq

/-- The environment of one iteration of the `while True` loop of `main`:
whether `grab_frame` succeeds, the key pressed, the current wall-clock
time, and the encoder flag and scripted service used if an inference is
triggered. -/
structure IterInput where
  grabOk : Bool
  key : Key
  now : ℚ
  encodeOk : Bool
  service : Nat → ServiceResponse

/-- The `while True` loop of `main` (demo5.py lines 252-283), returning
the indices of the iterations in which `grab_frame` was invoked (it is
the first statement of every iteration).  A failed grab raises
`RuntimeError` (line 174); `main` has no per-iteration handler, so the
exception propagates to the `except` clause OUTSIDE the loop and the
loop terminates, as does a re-raised (fatal) inference exception.  Key
`q` breaks the loop.  An accepted trigger updates `last_call_time` and
runs `run_gemini_live` with `retries = 3`; its `None`/text result is
printed and the loop continues.  The scripted `inputs` list is a finite
prefix of the iterations the environment would supply. -/
def main_loop (apiKey : Option String) :
    Nat → ℚ → List IterInput → List Nat
  | _, _, [] => []
  | i, last_call_time, inp :: rest =>
    i :: (if inp.grabOk = false then
      []
    else
      match inp.key with
      | Key.g =>
        if inp.now - last_call_time < MIN_INTERVAL then
          main_loop apiKey (i + 1) last_call_time rest
        else
          match (run_gemini_live apiKey inp.encodeOk inp.service 3).result with
          | RunResult.raised _ => []
          | RunResult.returned _ => main_loop apiKey (i + 1) inp.now rest
      | Key.q => []
      | Key.other => main_loop apiKey (i + 1) last_call_time rest)

/-- C3: with an absent credential (`GEMINI_API_KEY` unset), the client
returns immediately (`None`, the Skipped outcome) with zero service
attempts and zero backoff waits, whatever the frame encoder, the scripted
service and the retry budget are. -/
theorem run_gemini_live_no_credential (encodeOk : Bool)
    (service : Nat → ServiceResponse) (retries : Nat) :
    run_gemini_live none encodeOk service retries =
      ⟨RunResult.returned none, 0, []⟩ := by
  simp [run_gemini_live, keyFalsy]

/-- C2: when the first attempt fails with a message classified as quota
exhaustion (contains "RESOURCE_EXHAUSTED" or "429") and not as overload,
the client returns `None` (the Unavailable outcome) after exactly 1
service attempt and no backoff wait. -/
theorem run_gemini_live_quota_immediate (key m : String)
    (service : Nat → ServiceResponse) (retries : Nat)
    (hkey : key ≠ "") (hr : 0 < retries)
    (hs : service 0 = ServiceResponse.error m)
    (hov : overloadMsg m = false) (hq : quotaMsg m = true) :
    run_gemini_live (some key) true service retries =
      ⟨RunResult.returned none, 1, []⟩ := by
  cases retries with
  | zero => omega
  | succ r =>
    simp [run_gemini_live, keyFalsy, hkey, gemini_attempts, hs, hov, hq]

/-- C2 witness: a service double always failing with "429". -/
theorem run_gemini_live_quota_immediate_witness :
    run_gemini_live (some "k") true (fun _ => ServiceResponse.error "429") 3 =
      ⟨RunResult.returned none, 1, []⟩ :=
  run_gemini_live_quota_immediate "k" "429"
    (fun _ => ServiceResponse.error "429") 3
    (by decide) (by decide) rfl (by decide) (by decide)

/-- C4: when the first attempt fails with a message classified neither as
overload nor as quota exhaustion, the exception is re-raised after
exactly 1 service attempt, with no backoff wait and no `None` return. -/
theorem run_gemini_live_fatal_first_attempt (key m : String)
    (service : Nat → ServiceResponse) (retries : Nat)
    (hkey : key ≠ "") (hr : 0 < retries)
    (hs : service 0 = ServiceResponse.error m)
    (hov : overloadMsg m = false) (hq : quotaMsg m = false) :
    run_gemini_live (some key) true service retries =
      ⟨RunResult.raised m, 1, []⟩ := by
  cases retries with
  | zero => omega
  | succ r =>
    simp [run_gemini_live, keyFalsy, hkey, gemini_attempts, hs, hov, hq]

/-- C4 witness: a service double failing with an unclassified message. -/
theorem run_gemini_live_fatal_first_attempt_witness :
    run_gemini_live (some "k") true (fun _ => ServiceResponse.error "boom") 3 =
      ⟨RunResult.raised "boom", 1, []⟩ :=
  run_gemini_live_fatal_first_attempt "k" "boom"
    (fun _ => ServiceResponse.error "boom") 3
    (by decide) (by decide) rfl (by decide) (by decide)

/-- C1 counterexample: two overload failures then a success whose payload
is the empty string.  The two backoff waits of 1 and 2 do happen, but the
call returns `None` (`resp.text or None` coalesces the empty payload),
not a success carrying the service text. -/
theorem run_gemini_live_overload_then_empty_cex :
    (run_gemini_live (some "k") true
      (fun i => if i < 2 then ServiceResponse.error "503"
                else ServiceResponse.ok "") 3).waits = [1, 2] ∧
    (run_gemini_live (some "k") true
      (fun i => if i < 2 then ServiceResponse.error "503"
                else ServiceResponse.ok "") 3).result =
      RunResult.returned none ∧
    (run_gemini_live (some "k") true
      (fun i => if i < 2 then ServiceResponse.error "503"
                else ServiceResponse.ok "") 3).result ≠
      RunResult.returned (some "") := by
  decide

/-- C1 amended: with overload-classified failures on attempts 0 and 1 and
a success on attempt 2, the client with 3 retries performs exactly the
two backoff waits 2^0 = 1 and 2^1 = 2, in that order, over 3 attempts; it
returns the service text when that text is non-empty, and `None` when the
text is empty. -/
theorem run_gemini_live_overload_twice_then_success (key m0 m1 t : String)
    (service : Nat → ServiceResponse) (hkey : key ≠ "")
    (h0 : service 0 = ServiceResponse.error m0) (hm0 : overloadMsg m0 = true)
    (h1 : service 1 = ServiceResponse.error m1) (hm1 : overloadMsg m1 = true)
    (h2 : service 2 = ServiceResponse.ok t) :
    (t ≠ "" → run_gemini_live (some key) true service 3 =
      ⟨RunResult.returned (some t), 3, [1, 2]⟩) ∧
    (t = "" → run_gemini_live (some key) true service 3 =
      ⟨RunResult.returned none, 3, [1, 2]⟩) := by
  constructor <;> intro ht <;>
    simp [run_gemini_live, keyFalsy, hkey, gemini_attempts,
      h0, h1, h2, hm0, hm1, ht]

/-- C1 witness: a service double overloaded twice, then answering "hi". -/
theorem run_gemini_live_overload_twice_then_success_witness :
    run_gemini_live (some "k") true
      (fun i => if i < 2 then ServiceResponse.error "503"
                else ServiceResponse.ok "hi") 3 =
      ⟨RunResult.returned (some "hi"), 3, [1, 2]⟩ :=
  (run_gemini_live_overload_twice_then_success "k" "503" "503" "hi"
    (fun i => if i < 2 then ServiceResponse.error "503"
              else ServiceResponse.ok "hi")
    (by decide) rfl (by decide) rfl (by decide) rfl).1 (by decide)

/-- C9 counterexample: a service success whose payload is the empty
string.  The client returns `None` — indistinguishable from the
Unavailable outcome and reported as "Gemini response unavailable." by
`main` — rather than a success carrying the empty payload. -/
theorem run_gemini_live_empty_success_cex :
    run_gemini_live (some "k") true (fun _ => ServiceResponse.ok "") 3 =
      ⟨RunResult.returned none, 1, []⟩ ∧
    (run_gemini_live (some "k") true
      (fun _ => ServiceResponse.ok "") 3).result ≠
      RunResult.returned (some "") := by
  decide

/-- C9 amended: when the service succeeds on the first attempt, the
client returns the raw payload if it is non-empty; an empty successful
payload is coalesced by `resp.text or None` to `None`, which `main`
reports as unavailable, not as a distinct "no content" success. -/
theorem run_gemini_live_success_payload (key t : String)
    (service : Nat → ServiceResponse) (retries : Nat)
    (hkey : key ≠ "") (hr : 0 < retries)
    (hs : service 0 = ServiceResponse.ok t) :
    (t ≠ "" → run_gemini_live (some key) true service retries =
      ⟨RunResult.returned (some t), 1, []⟩) ∧
    (t = "" → run_gemini_live (some key) true service retries =
      ⟨RunResult.returned none, 1, []⟩) := by
  cases retries with
  | zero => omega
  | succ r =>
    constructor <;> intro ht <;>
      simp [run_gemini_live, keyFalsy, hkey, gemini_attempts, hs, ht]

/-- C9 witness: a service double answering "hi" at once. -/
theorem run_gemini_live_success_payload_witness :
    run_gemini_live (some "k") true (fun _ => ServiceResponse.ok "hi") 1 =
      ⟨RunResult.returned (some "hi"), 1, []⟩ :=
  (run_gemini_live_success_payload "k" "hi"
    (fun _ => ServiceResponse.ok "hi") 1 (by decide) (by decide) rfl).1
    (by decide)

/-- Exhaustion of the retry loop: if every attempt from `attempt` for
`remaining` iterations fails with an overload-classified exception, the
loop performs all those attempts, waiting `2 ^ i` after each attempt `i`
(the last one included), and returns `None`. -/
theorem gemini_attempts_all_overload (service : Nat → ServiceResponse) :
    ∀ (remaining attempt : Nat),
      (∀ i, attempt ≤ i → i < attempt + remaining →
        isOverloadAttempt (service i) = true) →
      gemini_attempts service attempt remaining =
        ⟨RunResult.returned none, remaining,
          (List.range' attempt remaining).map (fun j => 2 ^ j)⟩ := by
  intro remaining
  induction remaining with
  | zero => intro attempt h; simp [gemini_attempts]
  | succ r ih =>
    intro attempt h
    have hi := h attempt (le_refl _) (by omega)
    cases hs : service attempt with
    | ok t => rw [hs] at hi; simp [isOverloadAttempt] at hi
    | error m =>
      rw [hs] at hi
      simp only [isOverloadAttempt] at hi
      have hrest := ih (attempt + 1) (fun i h1 h2 => h i (by omega) (by omega))
      simp [gemini_attempts, hs, hi, hrest, List.range'_succ]

/-- C10: when all `n` attempts fail with overload-classified exceptions,
the client performs exactly `n` backoff waits of durations
2^0, 2^1, …, 2^(n-1) — one full wait after the final failed attempt
included — and only then returns `None` (the Unavailable outcome) after
`n` attempts. -/
theorem run_gemini_live_all_overload_exhausts (key : String)
    (service : Nat → ServiceResponse) (n : Nat) (hkey : key ≠ "")
    (h : ∀ i, i < n → isOverloadAttempt (service i) = true) :
    run_gemini_live (some key) true service n =
      ⟨RunResult.returned none, n, (List.range n).map (fun j => 2 ^ j)⟩ := by
  have hmain := gemini_attempts_all_overload service n 0
    (fun i h1 h2 => h i (by omega))
  simp [run_gemini_live, keyFalsy, hkey, hmain, List.range_eq_range']

/-- C10 witness: a service double always overloaded, n = 3: waits are
2^0 = 1, 2^1 = 2, 2^2 = 4. -/
theorem run_gemini_live_all_overload_exhausts_witness :
    run_gemini_live (some "k") true (fun _ => ServiceResponse.error "503") 3 =
      ⟨RunResult.returned none, 3, (List.range 3).map (fun j => 2 ^ j)⟩ :=
  run_gemini_live_all_overload_exhausts "k"
    (fun _ => ServiceResponse.error "503") 3 (by decide)
    (fun i _ =>
      (by decide : isOverloadAttempt (ServiceResponse.error "503") = true))

/-- C5: a throttle check against a stored timestamp returns Throttled and
leaves the state unchanged when `now - last_call_time < MIN_INTERVAL`,
and otherwise returns Accepted and stores `now`; consequently a second
call spaced `d` after an accepted one is throttled exactly when
`d < MIN_INTERVAL` and accepted exactly when `MIN_INTERVAL ≤ d`. -/
theorem tryAcquire_spec (g : RateGate) (now : ℚ) :
    (now - g.last_call_time < MIN_INTERVAL →
      tryAcquire g now = (GateResult.Throttled, g)) ∧
    (MIN_INTERVAL ≤ now - g.last_call_time →
      tryAcquire g now = (GateResult.Accepted, ⟨now⟩)) ∧
    (∀ t d : ℚ, (tryAcquire g t).1 = GateResult.Accepted →
      (((tryAcquire (tryAcquire g t).2 (t + d)).1 = GateResult.Throttled ↔
          d < MIN_INTERVAL) ∧
        ((tryAcquire (tryAcquire g t).2 (t + d)).1 = GateResult.Accepted ↔
          MIN_INTERVAL ≤ d))) := by
  refine ⟨fun h => by simp [tryAcquire, h], fun h => ?_, fun t d hacc => ?_⟩
  · rw [tryAcquire, if_neg (by linarith)]
  · have hsnd : (tryAcquire g t).2 = ⟨t⟩ := by
      by_cases h : t - g.last_call_time < MIN_INTERVAL
      · simp [tryAcquire, h] at hacc
      · simp [tryAcquire, h]
    rw [hsnd]
    have harg : t + d - (RateGate.mk t).last_call_time = d := by ring
    by_cases hd : d < MIN_INTERVAL
    · rw [tryAcquire, harg, if_pos hd]
      simp [hd]
    · rw [tryAcquire, harg, if_neg hd]
      simp [hd]
      exact not_lt.mp hd

/-- C5 witness: from a state last accepted at 0, a call at 1 is
throttled (gap 1 < 1.5); a call at 2 is accepted (gap 2 ≥ 1.5). -/
theorem tryAcquire_spec_witness :
    tryAcquire ⟨0⟩ 1 = (GateResult.Throttled, ⟨0⟩) ∧
    tryAcquire ⟨0⟩ 2 = (GateResult.Accepted, ⟨2⟩) :=
  ⟨(tryAcquire_spec ⟨0⟩ 1).1 (by norm_num [MIN_INTERVAL]),
   (tryAcquire_spec ⟨0⟩ 2).2.1 (by norm_num [MIN_INTERVAL])⟩

/-- Every timestamp accepted during a gate run lies at least
`MIN_INTERVAL` above the stored `last_call_time` the run started from:
acceptance requires the gap, and the stored timestamp only moves
forward. -/
theorem acceptedTimes_lower_bound (ts : List ℚ) :
    ∀ (g : RateGate) (x : ℚ), x ∈ acceptedTimes g ts →
      g.last_call_time + MIN_INTERVAL ≤ x := by
  induction ts with
  | nil => intro g x hx; simp [acceptedTimes, runGate] at hx
  | cons t ts ih =>
    intro g x hx
    by_cases h : t - g.last_call_time < MIN_INTERVAL
    · have heq : acceptedTimes g (t :: ts) = acceptedTimes g ts := by
        simp [acceptedTimes, runGate, tryAcquire, h]
      rw [heq] at hx
      exact ih g x hx
    · have heq : acceptedTimes g (t :: ts) =
          t :: acceptedTimes ⟨t⟩ ts := by
        simp [acceptedTimes, runGate, tryAcquire, h]
      rw [heq] at hx
      have h2 := not_lt.mp h
      have hpos : (0 : ℚ) < MIN_INTERVAL := by norm_num [MIN_INTERVAL]
      rcases List.mem_cons.mp hx with rfl | hx
      · linarith
      · have hx2 := ih ⟨t⟩ x hx
        simp only at hx2
        linarith

/-- In any gate run, the accepted timestamps are pairwise spaced by at
least `MIN_INTERVAL`, in call order. -/
theorem acceptedTimes_pairwise (ts : List ℚ) :
    ∀ g : RateGate,
      List.Pairwise (fun a b => a + MIN_INTERVAL ≤ b)
        (acceptedTimes g ts) := by
  induction ts with
  | nil => intro g; simp [acceptedTimes, runGate]
  | cons t ts ih =>
    intro g
    by_cases h : t - g.last_call_time < MIN_INTERVAL
    · have heq : acceptedTimes g (t :: ts) = acceptedTimes g ts := by
        simp [acceptedTimes, runGate, tryAcquire, h]
      rw [heq]
      exact ih g
    · have heq : acceptedTimes g (t :: ts) =
          t :: acceptedTimes ⟨t⟩ ts := by
        simp [acceptedTimes, runGate, tryAcquire, h]
      rw [heq]
      refine List.Pairwise.cons (fun x hx => ?_) (ih ⟨t⟩)
      exact acceptedTimes_lower_bound ts ⟨t⟩ x hx

/-- C6: starting from the initial state (`last_call_time = 0`), over any
non-decreasing sequence of call timestamps, any two calls the gate
accepts have timestamps at least `MIN_INTERVAL` apart. -/
theorem rateGate_accepted_spacing (ts : List ℚ)
    (_hmono : List.Chain' (fun a b => a ≤ b) ts) :
    List.Pairwise (fun a b => a + MIN_INTERVAL ≤ b)
      (acceptedTimes gate0 ts) :=
  acceptedTimes_pairwise ts gate0

/-- C6 witness: timestamps 2, 3, 4 — calls at 2 and 4 are accepted, the
call at 3 is throttled, and the accepted pair is 2 apart ≥ 1.5. -/
theorem rateGate_accepted_spacing_witness :
    List.Pairwise (fun a b => a + MIN_INTERVAL ≤ b)
      (acceptedTimes gate0 [2, 3, 4]) :=
  rateGate_accepted_spacing [2, 3, 4] (by norm_num)

/-- `getD` commutes with `map` when the default is the image of a
default. -/
theorem getD_map_eq {α β : Type} (f : α → β) (l : List α) (i : Nat)
    (d : α) : (l.map f).getD i (f d) = f (l.getD i d) := by
  induction l generalizing i with
  | nil => simp
  | cons a l ih =>
    cases i with
    | zero => simp
    | succ j => simp [ih j]

/-- A `getD` lookup is an element of the list or the default. -/
theorem getD_mem_or_default {α : Type} (l : List α) (n : Nat) (d : α) :
    l.getD n d ∈ l ∨ l.getD n d = d := by
  by_cases h : n < l.length
  · left
    rw [List.getD_eq_getElem?_getD, List.getElem?_eq_getElem h]
    exact List.getElem_mem h
  · right
    rw [List.getD_eq_getElem?_getD, List.getElem?_eq_none (by omega)]
    rfl

/-- The per-pixel effect of `img[:, :, :3][:, :, ::-1]` on a 4-channel
pixel: channel `c` of the result is channel `2 - c` of the source. -/
theorem pixel_take3_reverse (px : List Nat) (h : px.length = 4)
    (c : Nat) (hc : c < 3) :
    ((px.take 3).reverse).getD c 0 = px.getD (2 - c) 0 := by
  cases px with
  | nil => simp at h
  | cons p0 rest =>
    have h3 : rest.length = 3 := by simpa using h
    obtain ⟨p1, p2, p3, rfl⟩ := List.length_eq_three.mp h3
    interval_cases c <;> rfl

/-- C7: for a raw frame whose pixels all have 4 channels, the grab
conversion yields a frame whose pixels all have exactly 3 channels, and
the value at channel `c` of any pixel equals channel `2 - c` of the
corresponding source pixel — the first 3 channels in reversed order, the
fourth (alpha) dropped. -/
theorem grab_frame_convert_four_channel (img : List (List (List Nat)))
    (hall : ∀ row ∈ img, ∀ px ∈ row, px.length = 4)
    (hsh : shape2 img = 4) :
    (∀ row ∈ grab_frame_convert img, ∀ px ∈ row, px.length = 3) ∧
    (∀ y x c : Nat, c < 3 →
      (((grab_frame_convert img).getD y []).getD x []).getD c 0 =
        ((img.getD y []).getD x []).getD (2 - c) 0) := by
  have hconv : grab_frame_convert img =
      img.map (fun row => row.map (fun px => (px.take 3).reverse)) := by
    simp [grab_frame_convert, hsh]
  constructor
  · intro row hrow px hpx
    rw [hconv] at hrow
    rcases List.mem_map.mp hrow with ⟨row0, hrow0, rfl⟩
    rcases List.mem_map.mp hpx with ⟨px0, hpx0, rfl⟩
    have h4 := hall row0 hrow0 px0 hpx0
    simp [h4]
  · intro y x c hc
    rw [hconv]
    have houter :
        (img.map (fun row =>
          row.map (fun px => (px.take 3).reverse))).getD y [] =
          (img.getD y []).map (fun px => (px.take 3).reverse) := by
      simpa using
        getD_map_eq (fun row : List (List Nat) =>
          row.map (fun px => (px.take 3).reverse)) img y []
    rw [houter]
    have hinner :
        ((img.getD y []).map (fun px => (px.take 3).reverse)).getD x [] =
          (((img.getD y []).getD x []).take 3).reverse := by
      simpa using
        getD_map_eq (fun px : List Nat => (px.take 3).reverse)
          (img.getD y []) x []
    rw [hinner]
    have hpx : (img.getD y []).getD x [] = [] ∨
        ((img.getD y []).getD x []).length = 4 := by
      rcases getD_mem_or_default img y [] with hrow | hrow
      · rcases getD_mem_or_default (img.getD y []) x [] with hp | hp
        · exact Or.inr (hall _ hrow _ hp)
        · exact Or.inl hp
      · rw [hrow]
        exact Or.inl rfl
    rcases hpx with hnil | h4
    · rw [hnil]
      simp
    · exact pixel_take3_reverse _ h4 c hc

/-- C7 witness: the single 4-channel pixel [10, 20, 30, 40] converts so
that channel 0 of the result is channel 2 of the source (30). -/
theorem grab_frame_convert_four_channel_witness :
    (((grab_frame_convert [[[10, 20, 30, 40]]]).getD 0 []).getD 0 []).getD
        0 0 =
      (([[[10, 20, 30, 40]]].getD 0 []).getD 0 []).getD (2 - 0) 0 :=
  (grab_frame_convert_four_channel [[[10, 20, 30, 40]]]
    (by simp) (by rfl)).2 0 0 0 (by norm_num)

/-- C8 counterexample: capture fails on iteration 0 and would succeed on
iteration 1, yet only iteration 0 attempts a grab — the `RuntimeError`
raised by `grab_frame` propagates to the handler outside the `while`
loop, so iteration 1 never runs. -/
theorem main_loop_capture_failure_cex :
    main_loop none 0 0
      [⟨false, Key.other, 0, true, fun _ => ServiceResponse.ok "x"⟩,
        ⟨true, Key.other, 0, true, fun _ => ServiceResponse.ok "x"⟩] =
      [0] ∧
    1 ∉ main_loop none 0 0
      [⟨false, Key.other, 0, true, fun _ => ServiceResponse.ok "x"⟩,
        ⟨true, Key.other, 0, true, fun _ => ServiceResponse.ok "x"⟩] := by
  constructor
  · rfl
  · intro hmem
    have h : main_loop none 0 0
        [⟨false, Key.other, 0, true, fun _ => ServiceResponse.ok "x"⟩,
          ⟨true, Key.other, 0, true, fun _ => ServiceResponse.ok "x"⟩] =
        [0] := rfl
    rw [h] at hmem
    simp at hmem

/-- C8 amended: a capture failure on iteration N terminates the driving
loop — iteration N + 1 does not attempt capture; an iteration whose
capture succeeds and whose key neither triggers nor quits is followed by
iteration N + 1 attempting capture again. -/
theorem main_loop_capture_failure_terminates (apiKey : Option String)
    (i : Nat) (lc : ℚ) (inp : IterInput) (rest : List IterInput) :
    (inp.grabOk = false → main_loop apiKey i lc (inp :: rest) = [i]) ∧
    (inp.grabOk = true → inp.key = Key.other →
      main_loop apiKey i lc (inp :: rest) =
        i :: main_loop apiKey (i + 1) lc rest) := by
  constructor
  · intro h
    simp [main_loop, h]
  · intro h hk
    simp [main_loop, h, hk]

/-- C8 witness: the two prongs of the amended claim on one-iteration
scripts. -/
theorem main_loop_capture_failure_terminates_witness :
    main_loop none 5 0
      [⟨false, Key.other, 0, true, fun _ => ServiceResponse.ok ""⟩] =
      [5] ∧
    main_loop none 5 0
      [⟨true, Key.other, 0, true, fun _ => ServiceResponse.ok ""⟩,
        ⟨true, Key.q, 0, true, fun _ => ServiceResponse.ok ""⟩] =
      5 :: main_loop none 6 0
        [⟨true, Key.q, 0, true, fun _ => ServiceResponse.ok ""⟩] :=
  ⟨(main_loop_capture_failure_terminates none 5 0
      ⟨false, Key.other, 0, true, fun _ => ServiceResponse.ok ""⟩ []).1 rfl,
   (main_loop_capture_failure_terminates none 5 0
      ⟨true, Key.other, 0, true, fun _ => ServiceResponse.ok ""⟩
      [⟨true, Key.q, 0, true, fun _ => ServiceResponse.ok ""⟩]).2 rfl rfl⟩
